import Mathlib

/-!
Verification of the ml-based-solar-tracking-system backend.

A shallow embedding, over exact rationals, of the parts of the repository the
frozen claims are about:

* `backend/analysis/short_term_predict_and_angle.py` — sliding-window padding
  (`get_last_window`), feature scaling, and the 0–90° angle grid search
  (`recommend_angle`).
* `backend/analysis/daily_forecast_recursive.py` — the recursive multi-day
  forecaster (`run_daily_forecast`) with its prediction-feedback rule.
* `backend/model.py` — the fault-tolerant ensemble combiner
  (`ensemble_predict`).
* `backend/app.py` — the telemetry-ingestion record construction and the ML
  pipeline's minimum-window gate (`run_ml_pipeline`).

Machine floats are modelled as exact rationals; trained model artifacts
(the LSTM, the random forests, the fitted scalers) are opaque parameters,
exactly as the Python code treats them (black boxes loaded from disk).
-/

namespace Solar

/-- Python's `round(x, 3)`: round to 3 decimal places.  (Ties, which the
claims and counterexamples below avoid, are resolved upward here while CPython
resolves them to even; everywhere this file uses `round3` the argument is not
a tie.) -/
def round3 (q : ℚ) : ℚ := (round (1000 * q) : ℤ) / 1000

/-- Largest element of a list of rationals (the value `np.max` would return);
`headD 0` only pads the irrelevant empty case. -/
def listMax (l : List ℚ) : ℚ := l.foldl max (l.headD 0)

/-- `np.argmax`: index of the first occurrence of the maximum value. -/
def argmaxFirst (l : List ℚ) : ℕ := l.findIdx (fun x => decide (listMax l ≤ x))

theorem foldl_max_init_le (l : List ℚ) (b : ℚ) : b ≤ l.foldl max b := by
  induction l generalizing b with
  | nil => exact le_refl b
  | cons y ys ih => exact le_trans (le_max_left b y) (ih (max b y))

theorem le_foldl_max_of_mem {x : ℚ} {l : List ℚ} (h : x ∈ l) (b : ℚ) :
    x ≤ l.foldl max b := by
  induction l generalizing b with
  | nil => cases h
  | cons y ys ih =>
    rcases List.mem_cons.mp h with rfl | hm
    · exact le_trans (le_max_right b x) (foldl_max_init_le ys _)
    · exact ih hm _

theorem foldl_max_mem (l : List ℚ) (b : ℚ) :
    l.foldl max b = b ∨ l.foldl max b ∈ l := by
  induction l generalizing b with
  | nil => exact Or.inl rfl
  | cons y ys ih =>
    rcases ih (max b y) with h | h
    · rcases le_total b y with hby | hyb
      · right
        rw [List.foldl_cons, h, max_eq_right hby]
        exact List.mem_cons_self y ys
      · left
        rw [List.foldl_cons, h, max_eq_left hyb]
    · right
      exact List.mem_cons_of_mem _ h

theorem listMax_mem {l : List ℚ} (h : l ≠ []) : listMax l ∈ l := by
  match l with
  | [] => exact absurd rfl h
  | x :: xs =>
    unfold listMax
    rcases foldl_max_mem (x :: xs) ((x :: xs).headD 0) with h1 | h1
    · rw [h1]
      exact List.mem_cons_self x xs
    · exact h1

theorem le_listMax {x : ℚ} {l : List ℚ} (h : x ∈ l) : x ≤ listMax l :=
  le_foldl_max_of_mem h _

theorem argmaxFirst_lt_length {l : List ℚ} (h : l ≠ []) :
    argmaxFirst l < l.length :=
  List.findIdx_lt_length_of_exists
    ⟨listMax l, listMax_mem h, by simp⟩

theorem getD_argmaxFirst {l : List ℚ} (h : l ≠ []) :
    l.getD (argmaxFirst l) 0 = listMax l := by
  have hlt : argmaxFirst l < l.length := argmaxFirst_lt_length h
  have hmem : l.get ⟨argmaxFirst l, hlt⟩ ∈ l := List.get_mem l (argmaxFirst l) hlt
  have hge : listMax l ≤ l.get ⟨argmaxFirst l, hlt⟩ := by
    have := @List.findIdx_getElem _ (fun x => decide (listMax l ≤ x)) l hlt
    simpa using this
  have heq := le_antisymm (le_listMax hmem) hge
  rw [List.getD_eq_getElem?_getD, List.getElem?_eq_getElem hlt]
  exact heq

theorem getD_lt_of_lt_argmaxFirst {l : List ℚ} {i : ℕ}
    (hi : i < argmaxFirst l) : l.getD i 0 < listMax l := by
  have hlen : i < l.length :=
    Nat.lt_of_lt_of_le hi (List.findIdx_le_length _)
  have := @List.not_of_lt_findIdx _ (fun x => decide (listMax l ≤ x)) l i hi
  simp only [decide_eq_false_iff_not, not_le] at this
  rw [List.getD_eq_getElem?_getD, List.getElem?_eq_getElem hlen]
  exact this

/-! ## `backend/analysis/short_term_predict_and_angle.py` -/

namespace ShortTerm

/-- `SEQ_LEN = 5` in short_term_predict_and_angle.py. -/
def SEQ_LEN : ℕ := 5

/-- `get_last_window(df)`: if the window has fewer than `SEQ_LEN` rows the
first row is repeated (`np.repeat(arr[[0]], SEQ_LEN - len(arr))`) and stacked
before the data; otherwise the last `SEQ_LEN` rows are kept.  On an empty
frame `arr[[0]]` raises `IndexError`, modelled here as the error case. -/
def get_last_window {α : Type} (rows : List α) : Except String (List α) :=
  if rows.length < SEQ_LEN then
    match rows with
    | [] => Except.error "IndexError: index 0 is out of bounds"
    | r :: rest =>
        Except.ok (List.replicate (SEQ_LEN - (r :: rest).length) r ++ (r :: rest))
  else
    Except.ok (rows.drop (rows.length - SEQ_LEN))

/-- One row of the scaler's `transform`: the per-feature affine map
`(x - mean_i) / scale_i` of `StandardScaler`, applied feature-wise
(`scale_windows` flattens the window, transforms, and reshapes — i.e. it
transforms every row). -/
def scaleRow (means scales : List ℚ) (r : List ℚ) : List ℚ :=
  r.mapIdx fun i x => (x - means.getD i 0) / scales.getD i 1

/-- `w[-1, angle_idx] = a` on a copy of the window: replace entry `angle_idx`
of the last row, leaving everything else unchanged. -/
def setLastAngle (w : List (List ℚ)) (idx : ℕ) (a : ℚ) : List (List ℚ) :=
  w.set (w.length - 1) ((w.getD (w.length - 1) []).set idx a)

/-- De-normalize a scaled model output with the voltage feature's own
`(mean_, scale_)` pair: `scaled_pred * std_v + mean_v`. -/
def denorm (means scales : List ℚ) (voltIdx : ℕ) (p : ℚ) : ℚ :=
  p * scales.getD voltIdx 1 + means.getD voltIdx 0

/-- The de-normalized prediction `recommend_angle` computes for candidate
angle `a`: scale the window with the candidate written into the last row's
angle column, run the (opaque) LSTM, and de-normalize. -/
def anglePredAt (model : List (List ℚ) → ℚ) (means scales : List ℚ)
    (voltIdx angleIdx : ℕ) (w : List (List ℚ)) (a : ℕ) : ℚ :=
  denorm means scales voltIdx
    (model ((setLastAngle w angleIdx (a : ℚ)).map (scaleRow means scales)))

/-- `recommend_angle(last_window, angle_idx)`: evaluate all 91 candidate
angles `np.arange(0, 91)`, take `int(np.argmax(preds))`, and return
`(angles[best], preds[best])` (with `angles[best] = best`). -/
def recommend_angle (model : List (List ℚ) → ℚ) (means scales : List ℚ)
    (voltIdx angleIdx : ℕ) (w : List (List ℚ)) : ℕ × ℚ :=
  let preds := (List.range 91).map (anglePredAt model means scales voltIdx angleIdx w)
  let best := argmaxFirst preds
  (best, preds.getD best 0)

end ShortTerm

/-! ### List helper lemmas -/

theorem getD_set_ne {α : Type} (l : List α) {k i : ℕ} (x d : α) (h : k ≠ i) :
    (l.set k x).getD i d = l.getD i d := by
  simp only [List.getD_eq_getElem?_getD]
  rw [List.getElem?_set_ne h]

theorem getD_set_self {α : Type} (l : List α) {k : ℕ} (x d : α)
    (h : k < l.length) : (l.set k x).getD k d = x := by
  simp only [List.getD_eq_getElem?_getD]
  rw [List.getElem?_set_self h]
  rfl

theorem getD_range_map {β : Type} (f : ℕ → β) (dflt : β) {n i : ℕ} (h : i < n) :
    ((List.range n).map f).getD i dflt = f i := by
  have hlen : i < ((List.range n).map f).length := by
    simpa using h
  rw [List.getD_eq_getElem?_getD, List.getElem?_eq_getElem hlen]
  simp

/-- Claim C5: for every non-empty input window shorter than the predictor's
required length `SEQ_LEN = 5`, `get_last_window` pads by replicating the
earliest sample backward, the padded window has exactly length 5, and windows
of length ≥ 5 are truncated to the last 5 samples. -/
theorem C5_get_last_window_pads {α : Type} (r : α) (rest : List α) :
    ∃ w, ShortTerm.get_last_window (r :: rest) = Except.ok w ∧
      w.length = ShortTerm.SEQ_LEN ∧
      ((r :: rest).length < ShortTerm.SEQ_LEN →
        w = List.replicate (ShortTerm.SEQ_LEN - (r :: rest).length) r ++ (r :: rest)) ∧
      (ShortTerm.SEQ_LEN ≤ (r :: rest).length →
        w = (r :: rest).drop ((r :: rest).length - ShortTerm.SEQ_LEN)) := by
  by_cases h : (r :: rest).length < ShortTerm.SEQ_LEN
  · refine ⟨List.replicate (ShortTerm.SEQ_LEN - (r :: rest).length) r ++ (r :: rest),
      ?_, ?_, fun _ => rfl, fun h5 => absurd h (not_lt.mpr h5)⟩
    · simp only [ShortTerm.get_last_window, if_pos h]
    · simp only [List.length_append, List.length_replicate, List.length_cons]
      simp only [ShortTerm.SEQ_LEN, List.length_cons] at h ⊢
      omega
  · refine ⟨(r :: rest).drop ((r :: rest).length - ShortTerm.SEQ_LEN),
      ?_, ?_, fun hlt => absurd hlt h, fun _ => rfl⟩
    · simp only [ShortTerm.get_last_window, if_neg h]
    · simp only [List.length_drop]
      simp only [ShortTerm.SEQ_LEN, List.length_cons, not_lt] at h ⊢
      omega

/-- Witness for C5 at the concrete one-sample window `[7]`. -/
theorem C5_get_last_window_pads_wit :
    ∃ w, ShortTerm.get_last_window ((7 : ℚ) :: []) = Except.ok w ∧
      w.length = ShortTerm.SEQ_LEN ∧
      (((7 : ℚ) :: []).length < ShortTerm.SEQ_LEN →
        w = List.replicate (ShortTerm.SEQ_LEN - ((7 : ℚ) :: []).length) (7 : ℚ) ++
          ((7 : ℚ) :: [])) ∧
      (ShortTerm.SEQ_LEN ≤ ((7 : ℚ) :: []).length →
        w = ((7 : ℚ) :: []).drop (((7 : ℚ) :: []).length - ShortTerm.SEQ_LEN)) :=
  C5_get_last_window_pads (7 : ℚ) []

/-- Claim C3: `recommend_angle` evaluates every integer angle 0..90, each
candidate window replacing only the angle feature of the last timestep, and
returns the first angle attaining the maximum de-normalized prediction
together with that prediction; for a predictor constant over the candidates it
returns angle 0. -/
theorem C3_recommend_angle_first_max (model : List (List ℚ) → ℚ)
    (means scales : List ℚ) (voltIdx angleIdx : ℕ) (w : List (List ℚ))
    (best : ℕ) (pv : ℚ)
    (hr : ShortTerm.recommend_angle model means scales voltIdx angleIdx w = (best, pv)) :
    best < 91 ∧
    pv = ShortTerm.anglePredAt model means scales voltIdx angleIdx w best ∧
    (∀ a, a < 91 →
      ShortTerm.anglePredAt model means scales voltIdx angleIdx w a ≤
        ShortTerm.anglePredAt model means scales voltIdx angleIdx w best) ∧
    (∀ a, a < best →
      ShortTerm.anglePredAt model means scales voltIdx angleIdx w a <
        ShortTerm.anglePredAt model means scales voltIdx angleIdx w best) ∧
    ((∀ a, a < 91 →
        ShortTerm.anglePredAt model means scales voltIdx angleIdx w a =
          ShortTerm.anglePredAt model means scales voltIdx angleIdx w 0) →
      best = 0) ∧
    (∀ (a : ℚ) (i j : ℕ), i ≠ w.length - 1 ∨ j ≠ angleIdx →
      ((ShortTerm.setLastAngle w angleIdx a).getD i []).getD j 0 =
        (w.getD i []).getD j 0) ∧
    (∀ (a : ℚ), w ≠ [] → angleIdx < (w.getD (w.length - 1) []).length →
      ((ShortTerm.setLastAngle w angleIdx a).getD (w.length - 1) []).getD angleIdx 0 = a) := by
  set A := ShortTerm.anglePredAt model means scales voltIdx angleIdx w with hA
  set P := (List.range 91).map A with hP
  have hne : P ≠ [] := by
    rw [hP]
    simp
  have hPlen : P.length = 91 := by
    rw [hP]
    simp
  have hget : ∀ a, a < 91 → P.getD a 0 = A a := by
    intro a ha
    rw [hP]
    exact getD_range_map A 0 ha
  have hbest : best = argmaxFirst P ∧ pv = P.getD (argmaxFirst P) 0 := by
    have : ShortTerm.recommend_angle model means scales voltIdx angleIdx w =
        (argmaxFirst P, P.getD (argmaxFirst P) 0) := rfl
    rw [this] at hr
    exact ⟨(Prod.mk.injEq _ _ _ _ ▸ hr.symm).1, (Prod.mk.injEq _ _ _ _ ▸ hr.symm).2⟩
  obtain ⟨hb, hpv⟩ := hbest
  have hblt : best < 91 := by
    rw [hb, ← hPlen]
    exact argmaxFirst_lt_length hne
  have hAbest : A best = listMax P := by
    rw [← hget best hblt, hb]
    exact getD_argmaxFirst hne
  refine ⟨hblt, ?_, ?_, ?_, ?_, ?_, ?_⟩
  · rw [hpv, ← hb, hget best hblt]
  · intro a ha
    rw [hAbest, ← hget a ha]
    have hmem : P.getD a 0 ∈ P := by
      have hlen : a < P.length := by
        rw [hPlen]
        exact ha
      rw [List.getD_eq_getElem?_getD, List.getElem?_eq_getElem hlen]
      exact List.getElem_mem hlen
    exact le_listMax hmem
  · intro a ha
    have ha91 : a < 91 := lt_trans ha hblt
    rw [hAbest, ← hget a ha91]
    rw [hb] at ha
    exact getD_lt_of_lt_argmaxFirst ha
  · intro hconst
    by_contra hb0
    have hpos : 0 < best := Nat.pos_of_ne_zero hb0
    have hlt : A 0 < A best := by
      rw [hAbest, ← hget 0 (by norm_num)]
      rw [hb] at hpos
      exact getD_lt_of_lt_argmaxFirst hpos
    have heq : A best = A 0 := hconst best hblt
    exact absurd hlt (by rw [heq]; exact lt_irrefl _)
  · intro a i j hij
    unfold ShortTerm.setLastAngle
    rcases hij with hi | hj
    · rw [getD_set_ne w _ _ (fun he => hi he.symm)]
    · by_cases hi : w.length - 1 = i
      · subst hi
        by_cases hw : w = []
        · subst hw
          simp
        · have hlt : w.length - 1 < w.length := by
            have : 0 < w.length := List.length_pos.mpr hw
            omega
          rw [getD_set_self w _ _ hlt, getD_set_ne _ _ _ (fun he => hj he.symm)]
      · rw [getD_set_ne w _ _ hi]
  · intro a hw hidx
    unfold ShortTerm.setLastAngle
    have hlt : w.length - 1 < w.length := by
      have : 0 < w.length := List.length_pos.mpr hw
      omega
    rw [getD_set_self w _ _ hlt, getD_set_self _ _ _ hidx]

theorem foldl_max_replicate_self (c : ℚ) : ∀ n, (List.replicate n c).foldl max c = c
  | 0 => rfl
  | n + 1 => by
      rw [List.replicate_succ, List.foldl_cons, max_self]
      exact foldl_max_replicate_self c n

theorem listMax_replicate (n : ℕ) (c : ℚ) : listMax (List.replicate (n + 1) c) = c := by
  unfold listMax
  rw [List.replicate_succ]
  simp only [List.headD_cons, List.foldl_cons, max_self]
  exact foldl_max_replicate_self c n

theorem argmaxFirst_replicate (n : ℕ) (c : ℚ) :
    argmaxFirst (List.replicate (n + 1) c) = 0 := by
  unfold argmaxFirst
  rw [listMax_replicate, List.replicate_succ, List.findIdx_cons]
  simp

/-- Witness for C3 at a constant model on a concrete 1×2 window: the
recommended angle is 0 (first-max tie-break) with prediction 0. -/
theorem C3_recommend_angle_first_max_wit :
    (0 : ℕ) < 91 ∧
    (0 : ℚ) = ShortTerm.anglePredAt (fun _ => 0) [0, 0] [1, 1] 0 1 [[3, 4]] 0 ∧
    (∀ a, a < 91 →
      ShortTerm.anglePredAt (fun _ => 0) [0, 0] [1, 1] 0 1 [[3, 4]] a ≤
        ShortTerm.anglePredAt (fun _ => 0) [0, 0] [1, 1] 0 1 [[3, 4]] 0) ∧
    (∀ a, a < 0 →
      ShortTerm.anglePredAt (fun _ => 0) [0, 0] [1, 1] 0 1 [[3, 4]] a <
        ShortTerm.anglePredAt (fun _ => 0) [0, 0] [1, 1] 0 1 [[3, 4]] 0) ∧
    ((∀ a, a < 91 →
        ShortTerm.anglePredAt (fun _ => 0) [0, 0] [1, 1] 0 1 [[3, 4]] a =
          ShortTerm.anglePredAt (fun _ => 0) [0, 0] [1, 1] 0 1 [[3, 4]] 0) →
      (0 : ℕ) = 0) ∧
    (∀ (a : ℚ) (i j : ℕ), i ≠ [[(3 : ℚ), 4]].length - 1 ∨ j ≠ 1 →
      ((ShortTerm.setLastAngle [[3, 4]] 1 a).getD i []).getD j 0 =
        ([[(3 : ℚ), 4]].getD i []).getD j 0) ∧
    (∀ (a : ℚ), [[(3 : ℚ), 4]] ≠ [] →
      1 < ([[(3 : ℚ), 4]].getD ([[(3 : ℚ), 4]].length - 1) []).length →
      ((ShortTerm.setLastAngle [[3, 4]] 1 a).getD ([[(3 : ℚ), 4]].length - 1) []).getD 1 0 = a) := by
  have hA : ∀ a ∈ List.range 91,
      ShortTerm.anglePredAt (fun _ => (0 : ℚ)) [0, 0] [1, 1] 0 1 [[3, 4]] a
        = (fun _ : ℕ => (0 : ℚ)) a := by
    intro a _
    simp [ShortTerm.anglePredAt, ShortTerm.denorm]
  have hr : ShortTerm.recommend_angle (fun _ => 0) [0, 0] [1, 1] 0 1 [[3, 4]] = (0, 0) := by
    unfold ShortTerm.recommend_angle
    rw [List.map_congr_left hA, List.map_const', List.length_range]
    show (argmaxFirst (List.replicate 91 (0 : ℚ)),
        (List.replicate 91 (0 : ℚ)).getD (argmaxFirst (List.replicate 91 (0 : ℚ))) 0) = (0, 0)
    rw [show (91 : ℕ) = 90 + 1 from rfl, argmaxFirst_replicate, List.replicate_succ,
      List.getD_cons_zero]
  exact C3_recommend_angle_first_max (fun _ => 0) [0, 0] [1, 1] 0 1 [[3, 4]] 0 0 hr

/-! ## `backend/analysis/daily_forecast_recursive.py` -/

namespace Daily

/-- One row of the telemetry DataFrame handed to `run_daily_forecast`.  Every
column access in the source goes through `last.get(col, default)`, so each
column is optional. -/
structure SeqRow where
  ldr : Option ℚ
  temperature : Option ℚ
  humidity : Option ℚ
  panel_angle : Option ℚ
  voltage : Option ℚ
  current : Option ℚ

/-- The synthetic daily feature snapshot `base`, one field per entry of
`FEATURE_COLS`. -/
structure DailyBase where
  avg_ldr : ℚ
  max_ldr : ℚ
  avg_temp : ℚ
  max_temp : ℚ
  avg_humidity : ℚ
  avg_angle : ℚ
  std_angle : ℚ
  mean_voltage : ℚ
  max_voltage : ℚ
  sum_current : ℚ
  mean_current : ℚ
  samples : ℚ

/-- The `base = {...}` dictionary built from the last row of `seq_df`
(`seq_df.iloc[-1]`), with the source's per-column defaults; 1.2 is `6/5`. -/
def buildBase (seqLen : ℕ) (last : SeqRow) : DailyBase where
  avg_ldr := last.ldr.getD 600
  max_ldr := last.ldr.getD 600
  avg_temp := last.temperature.getD 30
  max_temp := last.temperature.getD 32
  avg_humidity := last.humidity.getD 50
  avg_angle := last.panel_angle.getD 30
  std_angle := 2
  mean_voltage := last.voltage.getD 12
  max_voltage := last.voltage.getD 12
  sum_current := last.current.getD (6 / 5)
  mean_current := last.current.getD (6 / 5)
  samples := (seqLen : ℚ)

/-- One `{"day": d, "predicted_voltage": ...}` entry of the forecast. -/
structure ForecastPoint where
  day : ℕ
  predicted_voltage : ℚ

/-- The feedback rule at the bottom of the loop body:
`base["mean_voltage"] = pred_v; base["max_voltage"] = pred_v`. -/
def feed (base : DailyBase) (pred_v : ℚ) : DailyBase :=
  { base with mean_voltage := pred_v, max_voltage := pred_v }

/-- The `for d in range(1, horizon + 1)` loop of `run_daily_forecast`.
`predict` is the opaque composition `rf.predict ∘ scaler.transform` of the two
artifacts loaded at module import; `hrem` counts remaining days and `d` is the
current day index.  Each iteration records the prediction rounded to 3 decimal
places but feeds the unrounded value back. -/
def forecastLoop (predict : DailyBase → ℚ) :
    (hrem : ℕ) → (d : ℕ) → DailyBase → List ForecastPoint
  | 0, _, _ => []
  | hrem + 1, d, base =>
      let pred_v := predict base
      { day := d, predicted_voltage := round3 pred_v } ::
        forecastLoop predict hrem (d + 1) (feed base pred_v)

/-- `run_daily_forecast(seq_df, horizon)`.  On an empty frame
`seq_df.iloc[-1]` raises `IndexError`, modelled as the error case. -/
def run_daily_forecast (predict : DailyBase → ℚ) (seq : List SeqRow)
    (horizon : ℕ) : Except String (List ForecastPoint) :=
  match seq.getLast? with
  | none => Except.error "IndexError: single positional indexer is out-of-bounds"
  | some last => Except.ok (forecastLoop predict horizon 1 (buildBase seq.length last))

/-- The snapshot in force when the loop computes its `(i + 1)`-st prediction:
the initial base for `i = 0`, then the feed of the previous snapshot with the
previous (unrounded) prediction. -/
def snapshotAt (predict : DailyBase → ℚ) (base : DailyBase) : ℕ → DailyBase
  | 0 => base
  | i + 1 => feed (snapshotAt predict base i) (predict (snapshotAt predict base i))

theorem snapshotAt_feed (p : DailyBase → ℚ) (b : DailyBase) (i : ℕ) :
    snapshotAt p (feed b (p b)) i = snapshotAt p b (i + 1) := by
  induction i with
  | zero => rfl
  | succ i ih =>
    show feed (snapshotAt p (feed b (p b)) i) (p (snapshotAt p (feed b (p b)) i)) = _
    rw [ih]
    rfl

/-- Closed form of the loop: the `i`-th recorded point carries day `d + i` and
the rounded prediction taken on the `i`-th snapshot. -/
theorem forecastLoop_eq (p : DailyBase → ℚ) :
    ∀ (hrem d : ℕ) (b : DailyBase),
      forecastLoop p hrem d b = (List.range hrem).map
        (fun i => ⟨d + i, round3 (p (snapshotAt p b i))⟩) := by
  intro hrem
  induction hrem with
  | zero => intro d b; rfl
  | succ hrem ih =>
    intro d b
    have hstep : forecastLoop p (hrem + 1) d b =
        ForecastPoint.mk d (round3 (p b)) :: forecastLoop p hrem (d + 1) (feed b (p b)) := rfl
    rw [hstep, ih (d + 1) (feed b (p b)), List.range_succ_eq_map, List.map_cons,
      List.map_map]
    congr 1
    apply List.map_congr_left
    intro i _
    show ForecastPoint.mk (d + 1 + i) (round3 (p (snapshotAt p (feed b (p b)) i)))
        = ⟨d + (i + 1), round3 (p (snapshotAt p b (i + 1)))⟩
    rw [snapshotAt_feed]
    have harith : d + 1 + i = d + (i + 1) := by omega
    rw [harith]

/-- All snapshot fields other than `mean_voltage` / `max_voltage` keep their
initial values at every step of the recursion. -/
theorem snapshotAt_frame (p : DailyBase → ℚ) (b : DailyBase) (i : ℕ) :
    (snapshotAt p b i).avg_ldr = b.avg_ldr ∧
    (snapshotAt p b i).max_ldr = b.max_ldr ∧
    (snapshotAt p b i).avg_temp = b.avg_temp ∧
    (snapshotAt p b i).max_temp = b.max_temp ∧
    (snapshotAt p b i).avg_humidity = b.avg_humidity ∧
    (snapshotAt p b i).avg_angle = b.avg_angle ∧
    (snapshotAt p b i).std_angle = b.std_angle ∧
    (snapshotAt p b i).sum_current = b.sum_current ∧
    (snapshotAt p b i).mean_current = b.mean_current ∧
    (snapshotAt p b i).samples = b.samples := by
  induction i with
  | zero => exact ⟨rfl, rfl, rfl, rfl, rfl, rfl, rfl, rfl, rfl, rfl⟩
  | succ i ih =>
    simpa only [snapshotAt, feed] using ih

/-- Claim C6: for every non-empty input sequence and every horizon `H ≥ 1`,
`run_daily_forecast` returns exactly `H` points with day indices
`1, 2, ..., H` in increasing order. -/
theorem C6_daily_forecast_length_days (predict : DailyBase → ℚ)
    (seq : List SeqRow) (H : ℕ) (hseq : seq ≠ []) (_hH : 1 ≤ H) :
    ∃ fps, run_daily_forecast predict seq H = Except.ok fps ∧
      fps.length = H ∧ fps.map ForecastPoint.day = List.range' 1 H := by
  obtain ⟨last, hlast⟩ :=
    Option.isSome_iff_exists.mp (List.getLast?_isSome.mpr hseq)
  refine ⟨forecastLoop predict H 1 (buildBase seq.length last), ?_, ?_, ?_⟩
  · simp only [run_daily_forecast, hlast]
  · rw [forecastLoop_eq]
    simp
  · rw [forecastLoop_eq, List.map_map, List.range'_eq_map_range]
    apply List.map_congr_left
    intro i _
    rfl

/-- Witness for C6 on a one-row sequence with horizon 3. -/
theorem C6_daily_forecast_length_days_wit :
    ∃ fps, run_daily_forecast (fun _ => 0) [⟨none, none, none, none, none, none⟩] 3 =
        Except.ok fps ∧
      fps.length = 3 ∧ fps.map ForecastPoint.day = List.range' 1 3 :=
  C6_daily_forecast_length_days (fun _ => 0) [⟨none, none, none, none, none, none⟩] 3
    (List.cons_ne_nil _ _) (by norm_num)

/-- Claim C4: after recording day `d + 1`'s prediction, exactly the snapshot
fields `mean_voltage` and `max_voltage` are overwritten with the just-produced
(unrounded) prediction before day `d + 2` is computed, and every other
snapshot field keeps its initial value for the entire horizon. -/
theorem C4_daily_forecast_feedback_frame (predict : DailyBase → ℚ)
    (b : DailyBase) (H d : ℕ) (hd : d < H) :
    (forecastLoop predict H 1 b).getD d ⟨0, 0⟩ =
      ⟨d + 1, round3 (predict (snapshotAt predict b d))⟩ ∧
    (snapshotAt predict b (d + 1)).mean_voltage = predict (snapshotAt predict b d) ∧
    (snapshotAt predict b (d + 1)).max_voltage = predict (snapshotAt predict b d) ∧
    (snapshotAt predict b d).avg_ldr = b.avg_ldr ∧
    (snapshotAt predict b d).max_ldr = b.max_ldr ∧
    (snapshotAt predict b d).avg_temp = b.avg_temp ∧
    (snapshotAt predict b d).max_temp = b.max_temp ∧
    (snapshotAt predict b d).avg_humidity = b.avg_humidity ∧
    (snapshotAt predict b d).avg_angle = b.avg_angle ∧
    (snapshotAt predict b d).std_angle = b.std_angle ∧
    (snapshotAt predict b d).sum_current = b.sum_current ∧
    (snapshotAt predict b d).mean_current = b.mean_current ∧
    (snapshotAt predict b d).samples = b.samples := by
  obtain ⟨h1, h2, h3, h4, h5, h6, h7, h8, h9, h10⟩ := snapshotAt_frame predict b d
  refine ⟨?_, rfl, rfl, h1, h2, h3, h4, h5, h6, h7, h8, h9, h10⟩
  rw [forecastLoop_eq]
  have := getD_range_map
    (fun i => ForecastPoint.mk (1 + i) (round3 (predict (snapshotAt predict b i))))
    ⟨0, 0⟩ hd
  rw [this]
  show ForecastPoint.mk (1 + d) (round3 (predict (snapshotAt predict b d))) =
      ⟨d + 1, round3 (predict (snapshotAt predict b d))⟩
  have harith : 1 + d = d + 1 := by omega
  rw [harith]

/-- Witness for C4 with a constant-zero predictor, horizon 2, day index 0. -/
theorem C4_daily_forecast_feedback_frame_wit :
    (forecastLoop (fun _ => 0) 2 1 ⟨600, 600, 30, 32, 50, 30, 2, 12, 12, 6 / 5, 6 / 5, 1⟩).getD
        0 ⟨0, 0⟩ =
      ⟨0 + 1, round3 ((fun _ => (0 : ℚ))
        (snapshotAt (fun _ => 0) ⟨600, 600, 30, 32, 50, 30, 2, 12, 12, 6 / 5, 6 / 5, 1⟩ 0))⟩ ∧
    (snapshotAt (fun _ => 0) ⟨600, 600, 30, 32, 50, 30, 2, 12, 12, 6 / 5, 6 / 5, 1⟩
        (0 + 1)).mean_voltage =
      (fun _ => (0 : ℚ))
        (snapshotAt (fun _ => 0) ⟨600, 600, 30, 32, 50, 30, 2, 12, 12, 6 / 5, 6 / 5, 1⟩ 0) ∧
    (snapshotAt (fun _ => 0) ⟨600, 600, 30, 32, 50, 30, 2, 12, 12, 6 / 5, 6 / 5, 1⟩
        (0 + 1)).max_voltage =
      (fun _ => (0 : ℚ))
        (snapshotAt (fun _ => 0) ⟨600, 600, 30, 32, 50, 30, 2, 12, 12, 6 / 5, 6 / 5, 1⟩ 0) ∧
    (snapshotAt (fun _ => 0) ⟨600, 600, 30, 32, 50, 30, 2, 12, 12, 6 / 5, 6 / 5, 1⟩
        0).avg_ldr = (600 : ℚ) ∧
    (snapshotAt (fun _ => 0) ⟨600, 600, 30, 32, 50, 30, 2, 12, 12, 6 / 5, 6 / 5, 1⟩
        0).max_ldr = (600 : ℚ) ∧
    (snapshotAt (fun _ => 0) ⟨600, 600, 30, 32, 50, 30, 2, 12, 12, 6 / 5, 6 / 5, 1⟩
        0).avg_temp = (30 : ℚ) ∧
    (snapshotAt (fun _ => 0) ⟨600, 600, 30, 32, 50, 30, 2, 12, 12, 6 / 5, 6 / 5, 1⟩
        0).max_temp = (32 : ℚ) ∧
    (snapshotAt (fun _ => 0) ⟨600, 600, 30, 32, 50, 30, 2, 12, 12, 6 / 5, 6 / 5, 1⟩
        0).avg_humidity = (50 : ℚ) ∧
    (snapshotAt (fun _ => 0) ⟨600, 600, 30, 32, 50, 30, 2, 12, 12, 6 / 5, 6 / 5, 1⟩
        0).avg_angle = (30 : ℚ) ∧
    (snapshotAt (fun _ => 0) ⟨600, 600, 30, 32, 50, 30, 2, 12, 12, 6 / 5, 6 / 5, 1⟩
        0).std_angle = (2 : ℚ) ∧
    (snapshotAt (fun _ => 0) ⟨600, 600, 30, 32, 50, 30, 2, 12, 12, 6 / 5, 6 / 5, 1⟩
        0).sum_current = (6 / 5 : ℚ) ∧
    (snapshotAt (fun _ => 0) ⟨600, 600, 30, 32, 50, 30, 2, 12, 12, 6 / 5, 6 / 5, 1⟩
        0).mean_current = (6 / 5 : ℚ) ∧
    (snapshotAt (fun _ => 0) ⟨600, 600, 30, 32, 50, 30, 2, 12, 12, 6 / 5, 6 / 5, 1⟩
        0).samples = (1 : ℚ) :=
  C4_daily_forecast_feedback_frame (fun _ => 0)
    ⟨600, 600, 30, 32, 50, 30, 2, 12, 12, 6 / 5, 6 / 5, 1⟩ 2 0 (by norm_num)

/-- Claim C10: the forecaster records day `d + 1`'s `predicted_voltage`
rounded to 3 decimal places while feeding the unrounded prediction back into
`mean_voltage` / `max_voltage`, and there are predictors for which re-running
the recursion from the rounded value yields a different next prediction, so
the recorded values are not in general sufficient to reproduce the
recursion. -/
theorem C10_rounded_record_unrounded_feedback (predict : DailyBase → ℚ)
    (b : DailyBase) (H d : ℕ) (hd : d < H) :
    ((forecastLoop predict H 1 b).getD d ⟨0, 0⟩).predicted_voltage =
      round3 (predict (snapshotAt predict b d)) ∧
    (snapshotAt predict b (d + 1)).mean_voltage = predict (snapshotAt predict b d) ∧
    (snapshotAt predict b (d + 1)).max_voltage = predict (snapshotAt predict b d) ∧
    ∃ (p : DailyBase → ℚ) (b0 : DailyBase),
      p (feed b0 (round3 (p b0))) ≠ p (snapshotAt p b0 1) := by
  refine ⟨?_, rfl, rfl, ?_⟩
  · rw [forecastLoop_eq]
    have := getD_range_map
      (fun i => ForecastPoint.mk (1 + i) (round3 (predict (snapshotAt predict b i))))
      ⟨0, 0⟩ hd
    rw [this]
  · refine ⟨fun x => x.mean_voltage / 3, ⟨0, 0, 0, 0, 0, 0, 0, 1, 1, 0, 0, 1⟩, ?_⟩
    show round3 ((1 : ℚ) / 3) / 3 ≠ (1 : ℚ) / 3 / 3
    norm_num [round3, round_eq]

/-- Witness for C10 with a constant-zero predictor, horizon 1, day index 0. -/
theorem C10_rounded_record_unrounded_feedback_wit :
    ((forecastLoop (fun _ => 0) 1 1 ⟨0, 0, 0, 0, 0, 0, 0, 1, 1, 0, 0, 1⟩).getD 0
        ⟨0, 0⟩).predicted_voltage =
      round3 ((fun _ => (0 : ℚ))
        (snapshotAt (fun _ => 0) ⟨0, 0, 0, 0, 0, 0, 0, 1, 1, 0, 0, 1⟩ 0)) ∧
    (snapshotAt (fun _ => 0) ⟨0, 0, 0, 0, 0, 0, 0, 1, 1, 0, 0, 1⟩ (0 + 1)).mean_voltage =
      (fun _ => (0 : ℚ)) (snapshotAt (fun _ => 0) ⟨0, 0, 0, 0, 0, 0, 0, 1, 1, 0, 0, 1⟩ 0) ∧
    (snapshotAt (fun _ => 0) ⟨0, 0, 0, 0, 0, 0, 0, 1, 1, 0, 0, 1⟩ (0 + 1)).max_voltage =
      (fun _ => (0 : ℚ)) (snapshotAt (fun _ => 0) ⟨0, 0, 0, 0, 0, 0, 0, 1, 1, 0, 0, 1⟩ 0) ∧
    ∃ (p : DailyBase → ℚ) (b0 : DailyBase),
      p (feed b0 (round3 (p b0))) ≠ p (snapshotAt p b0 1) :=
  C10_rounded_record_unrounded_feedback (fun _ => 0) ⟨0, 0, 0, 0, 0, 0, 0, 1, 1, 0, 0, 1⟩
    1 0 (by norm_num)

end Daily

/-! ## `backend/model.py` — the ensemble combiner -/

namespace Ensemble

/-- `SEQ_LEN` of `model.py` (env default 24). -/
def SEQ_LEN : ℕ := 24

/-- One converted row of `seq_arr`: `[ldr, temp, hum, angle, voltage]`. -/
structure EnsRow where
  ldr : ℚ
  temp : ℚ
  hum : ℚ
  angle : ℚ
  voltage : ℚ

/-- The first four features of a row (what the LSTM and the RF consume). -/
def EnsRow.feat4 (r : EnsRow) : ℚ × ℚ × ℚ × ℚ := (r.ldr, r.temp, r.hum, r.angle)

/-- A sample dict as `ensemble_predict` receives it in a list: every key
optional, with the fallback keys the source probes. -/
structure EnsDict where
  ldr : Option ℚ
  LDR : Option ℚ
  temperature : Option ℚ
  temp : Option ℚ
  humidity : Option ℚ
  hum : Option ℚ
  panel_angle : Option ℚ
  angle : Option ℚ
  voltage : Option ℚ

/-- The dict-to-row conversion at the top of `ensemble_predict`:
`s.get("ldr", s.get("ldr", s.get("LDR", 0.0)))` and friends. -/
def EnsDict.toRow (s : EnsDict) : EnsRow where
  ldr := s.ldr.getD (s.LDR.getD 0)
  temp := s.temperature.getD (s.temp.getD 0)
  hum := s.humidity.getD (s.hum.getD 0)
  angle := s.panel_angle.getD (s.angle.getD 0)
  voltage := s.voltage.getD 0

/-- `device_seq` as passed in: `None`, a list of dicts, or a numpy array. -/
inductive DeviceSeqInput where
  | absent
  | dicts (l : List EnsDict)
  | arr (rows : List EnsRow)

/-- The `seq_arr` normalization: `None` stays `None`, a list of dicts is
converted row-wise, an array is taken as-is (an empty list becomes a
shape-`(0,)` array, i.e. the empty row list). -/
def seqArrOf : DeviceSeqInput → Option (List EnsRow)
  | DeviceSeqInput.absent => none
  | DeviceSeqInput.dicts l => some (l.map EnsDict.toRow)
  | DeviceSeqInput.arr rows => some rows

/-- The three optional backends plus the module-level availability flags
(`TF_AVAILABLE`, `XGB_AVAILABLE`).  A backend is a black-box predict call that
either returns a value or raises (`Except.error`). -/
structure EnsembleModels where
  tfAvailable : Bool
  xgbAvailable : Bool
  lstm : Option (List (ℚ × ℚ × ℚ × ℚ) → Except String ℚ)
  xgb : Option (List EnsRow → Except String ℚ)
  rf : Option ((ℚ × ℚ × ℚ × ℚ) → Except String ℚ)

/-- `seq_arr[-n:]`: the last `n` rows. -/
def lastN {α : Type} (n : ℕ) (l : List α) : List α := l.drop (l.length - n)

/-- The LSTM branch: attempted only when TF is available, a model is loaded
and the sequence has at least `SEQ_LEN` rows; it consumes the last `SEQ_LEN`
rows' first four features.  `none` = branch not attempted; `some (.error e)` =
attempted and failed (recorded in meta, no prediction). -/
def lstmAttempt (m : EnsembleModels) (sa : Option (List EnsRow)) :
    Option (Except String ℚ) :=
  match m.tfAvailable, m.lstm, sa with
  | true, some f, some rows =>
      if SEQ_LEN ≤ rows.length then some (f ((lastN SEQ_LEN rows).map EnsRow.feat4))
      else none
  | _, _, _ => none

/-- The XGBoost branch: attempted under the same length condition; it consumes
the last `SEQ_LEN` rows flattened (all five features). -/
def xgbAttempt (m : EnsembleModels) (sa : Option (List EnsRow)) :
    Option (Except String ℚ) :=
  match m.xgbAvailable, m.xgb, sa with
  | true, some f, some rows =>
      if SEQ_LEN ≤ rows.length then some (f (lastN SEQ_LEN rows)) else none
  | _, _, _ => none

/-- The fixed defaults the RF branch falls back to when no sequence row is
available: `[[500, 25, 45, 30]]`. -/
def rfDefaultInput : ℚ × ℚ × ℚ × ℚ := (500, 25, 45, 30)

/-- The features the RF branch predicts on: the last row's first four features
when the sequence is present and non-empty, the built-in defaults otherwise. -/
def rfInput (sa : Option (List EnsRow)) : ℚ × ℚ × ℚ × ℚ :=
  match sa with
  | some rows =>
      match rows.getLast? with
      | some lastRow => lastRow.feat4
      | none => rfDefaultInput
  | none => rfDefaultInput

/-- The RF branch: attempted whenever an RF model is present, with no length
condition. -/
def rfAttempt (m : EnsembleModels) (sa : Option (List EnsRow)) :
    Option (Except String ℚ) :=
  match m.rf with
  | none => none
  | some f => some (f (rfInput sa))

/-- Keep an attempted branch's value only when it succeeded. -/
def okPred : Option (Except String ℚ) → Option ℚ
  | some (Except.ok p) => some p
  | _ => none

/-- The `preds` list: the outputs of exactly the backends that were attempted
and succeeded, in backend order (lstm, xgboost, rf). -/
def ensemblePreds (m : EnsembleModels) (sa : Option (List EnsRow)) : List ℚ :=
  [lstmAttempt m sa, xgbAttempt m sa, rfAttempt m sa].filterMap okPred

/-- The `meta["models"]` diagnostics entries of the succeeded backends. -/
def ensembleMeta (m : EnsembleModels) (sa : Option (List EnsRow)) :
    List (String × ℚ) :=
  [("lstm", lstmAttempt m sa), ("xgboost", xgbAttempt m sa),
    ("rf", rfAttempt m sa)].filterMap fun x =>
      match okPred x.2 with
      | some p => some (x.1, round3 p)
      | none => none

/-- The ldr/temp/humidity context of the RF angle grid search: last sample's
values when available, `500, 25, 45` otherwise. -/
def rfCtx (sa : Option (List EnsRow)) : ℚ × ℚ × ℚ :=
  match sa with
  | some rows =>
      match rows.getLast? with
      | some lastRow => (lastRow.ldr, lastRow.temp, lastRow.hum)
      | none => (500, 25, 45)
  | none => (500, 25, 45)

/-- One step of the `for a in range(0, 91)` RF grid search: a failing predict
is scored `-1e9`; a strictly greater value replaces the incumbent. -/
def rfGridStep (f : (ℚ × ℚ × ℚ × ℚ) → Except String ℚ) (ldr temp hum : ℚ)
    (acc : ℕ × ℚ) (a : ℕ) : ℕ × ℚ :=
  let v : ℚ :=
    match f (ldr, temp, hum, (a : ℚ)) with
    | Except.ok v => v
    | Except.error _ => -1000000000
  if acc.2 < v then (a, v) else acc

/-- The RF angle grid search, starting from `best_ang = 0, best_v = -1e9`. -/
def rfGridSearch (f : (ℚ × ℚ × ℚ × ℚ) → Except String ℚ)
    (ldr temp hum : ℚ) : ℕ :=
  ((List.range 91).foldl (rfGridStep f ldr temp hum) (0, -1000000000)).1

/-- `np.mean`: sum divided by length. -/
def listMean (l : List ℚ) : ℚ := l.sum / l.length

/-- The dict `ensemble_predict` returns when at least one backend succeeded. -/
structure EnsembleResult where
  pred_15m : ℚ
  pred_30m : ℚ
  recommended_angle : ℕ
  models : List (String × ℚ)

/-- The `recommended_angle` computation: the RF grid search on the last
sample's (or default) context when an RF model is loaded, the fixed default
`int(30)` otherwise. -/
def bestAngleOf (m : EnsembleModels) (sa : Option (List EnsRow)) : ℕ :=
  match m.rf with
  | some f => rfGridSearch f (rfCtx sa).1 (rfCtx sa).2.1 (rfCtx sa).2.2
  | none => 30

/-- `ensemble_predict(device_seq, rf_model, xgb_model, lstm_model)`: attempt
the three backends, return `None` when no prediction was collected, otherwise
the mean of the collected predictions rounded to 3 decimals (`pred_30m` is the
same value, a placeholder in the source), plus the recommended angle. -/
def ensemble_predict (m : EnsembleModels) (ds : DeviceSeqInput) :
    Option EnsembleResult :=
  let sa := seqArrOf ds
  let preds := ensemblePreds m sa
  if preds = [] then none
  else
    some { pred_15m := round3 (listMean preds), pred_30m := round3 (listMean preds),
           recommended_angle := bestAngleOf m sa, models := ensembleMeta m sa }

theorem ensemble_predict_of_ne_nil (m : EnsembleModels) (ds : DeviceSeqInput)
    (hne : ensemblePreds m (seqArrOf ds) ≠ []) :
    ensemble_predict m ds = some
      { pred_15m := round3 (listMean (ensemblePreds m (seqArrOf ds))),
        pred_30m := round3 (listMean (ensemblePreds m (seqArrOf ds))),
        recommended_angle := bestAngleOf m (seqArrOf ds),
        models := ensembleMeta m (seqArrOf ds) } := by
  simp only [ensemble_predict]
  rw [if_neg hne]

theorem listMean_singleton (p : ℚ) : listMean [p] = p := by
  simp [listMean]

/-- Claim C7: when zero backends succeed the combiner returns the
distinguished `none` outcome, not a numeric value. -/
theorem C7_ensemble_all_fail_none (m : EnsembleModels) (ds : DeviceSeqInput)
    (h : ensemblePreds m (seqArrOf ds) = []) :
    ensemble_predict m ds = none := by
  simp only [ensemble_predict]
  rw [if_pos h]

/-- Witness for C7: no backend loaded at all. -/
theorem C7_ensemble_all_fail_none_wit :
    ensemble_predict ⟨false, false, none, none, none⟩ DeviceSeqInput.absent = none :=
  C7_ensemble_all_fail_none ⟨false, false, none, none, none⟩ DeviceSeqInput.absent rfl

/-- Claim C9: with an RF model present whose predict call always succeeds,
the combiner always returns a prediction (`none` is unreachable) regardless
of the device sequence, and on an empty or absent sequence the RF backend is
invoked on the fixed built-in defaults `(500, 25, 45, 30)`. -/
theorem C9_rf_present_none_unreachable (m : EnsembleModels)
    (ds : DeviceSeqInput) (f : (ℚ × ℚ × ℚ × ℚ) → Except String ℚ)
    (hrf : m.rf = some f) (hok : ∀ x, ∃ v, f x = Except.ok v) :
    (ensemble_predict m ds).isSome = true ∧
    ((seqArrOf ds = none ∨ seqArrOf ds = some []) →
      rfAttempt m (seqArrOf ds) = some (f (500, 25, 45, 30))) := by
  obtain ⟨v, hv⟩ := hok (rfInput (seqArrOf ds))
  have hatt : rfAttempt m (seqArrOf ds) = some (Except.ok v) := by
    simp only [rfAttempt, hrf, hv]
  have hmem : v ∈ ensemblePreds m (seqArrOf ds) :=
    List.mem_filterMap.mpr
      ⟨rfAttempt m (seqArrOf ds), by simp, by rw [hatt]; rfl⟩
  have hne : ensemblePreds m (seqArrOf ds) ≠ [] := List.ne_nil_of_mem hmem
  refine ⟨?_, ?_⟩
  · rw [ensemble_predict_of_ne_nil m ds hne]
    rfl
  · intro hcase
    have hin : rfInput (seqArrOf ds) = rfDefaultInput := by
      rcases hcase with h1 | h1 <;> rw [h1] <;> rfl
    simp only [rfAttempt, hrf, hin]
    rfl

/-- Witness for C9: an always-succeeding RF backend on the empty sequence. -/
theorem C9_rf_present_none_unreachable_wit :
    (ensemble_predict ⟨false, false, none, none, some (fun _ => Except.ok 5)⟩
        (DeviceSeqInput.arr [])).isSome = true ∧
    ((seqArrOf (DeviceSeqInput.arr []) = none ∨
        seqArrOf (DeviceSeqInput.arr []) = some []) →
      rfAttempt ⟨false, false, none, none, some (fun _ => Except.ok 5)⟩
          (seqArrOf (DeviceSeqInput.arr [])) =
        some ((fun _ => Except.ok (5 : ℚ)) ((500 : ℚ), (25 : ℚ), (45 : ℚ), (30 : ℚ)))) :=
  C9_rf_present_none_unreachable ⟨false, false, none, none, some (fun _ => Except.ok 5)⟩
    (DeviceSeqInput.arr []) (fun _ => Except.ok 5) rfl (fun _ => ⟨5, rfl⟩)

/-- Counterexample to claim C1 as stated: with only an RF backend succeeding
and returning the raw output `1/3`, the combined prediction is the rounded
`0.333 = 333/1000`, not the raw output. -/
theorem C1_mean_counterexample :
    ∃ r, ensemble_predict ⟨false, false, none, none, some (fun _ => Except.ok (1 / 3))⟩
        DeviceSeqInput.absent = some r ∧
      ensemblePreds ⟨false, false, none, none, some (fun _ => Except.ok (1 / 3))⟩
        (seqArrOf DeviceSeqInput.absent) = [1 / 3] ∧
      r.pred_15m = 333 / 1000 ∧
      (333 / 1000 : ℚ) ≠ 1 / 3 := by
  have hpreds : ensemblePreds
      ⟨false, false, none, none, some (fun _ => Except.ok (1 / 3))⟩
      (seqArrOf DeviceSeqInput.absent) = [1 / 3] := rfl
  refine ⟨_, ensemble_predict_of_ne_nil _ _ ?_, hpreds, ?_, by norm_num⟩
  · rw [hpreds]
    exact List.cons_ne_nil _ _
  · show round3 (listMean (ensemblePreds
      ⟨false, false, none, none, some (fun _ => Except.ok (1 / 3))⟩
      (seqArrOf DeviceSeqInput.absent))) = 333 / 1000
    rw [hpreds, listMean_singleton]
    norm_num [round3, round_eq]

/-- Claim C1 (amended): when at least one backend succeeds, the combined
prediction equals the arithmetic mean of exactly the succeeded backends'
outputs **rounded to 3 decimal places**; with exactly one succeeding backend
it equals that backend's raw output rounded to 3 decimal places. -/
theorem C1_mean_amended (m : EnsembleModels) (ds : DeviceSeqInput)
    (hne : ensemblePreds m (seqArrOf ds) ≠ []) :
    ∃ r, ensemble_predict m ds = some r ∧
      r.pred_15m = round3 (listMean (ensemblePreds m (seqArrOf ds))) ∧
      ∀ p, ensemblePreds m (seqArrOf ds) = [p] → r.pred_15m = round3 p := by
  refine ⟨_, ensemble_predict_of_ne_nil m ds hne, rfl, ?_⟩
  intro p hp
  show round3 (listMean (ensemblePreds m (seqArrOf ds))) = round3 p
  rw [hp, listMean_singleton]

/-- Witness for C1 (amended): a single RF backend returning 2. -/
theorem C1_mean_amended_wit :
    ∃ r, ensemble_predict ⟨false, false, none, none, some (fun _ => Except.ok 2)⟩
        DeviceSeqInput.absent = some r ∧
      r.pred_15m = round3 (listMean (ensemblePreds
        ⟨false, false, none, none, some (fun _ => Except.ok 2)⟩
        (seqArrOf DeviceSeqInput.absent))) ∧
      ∀ p, ensemblePreds ⟨false, false, none, none, some (fun _ => Except.ok 2)⟩
          (seqArrOf DeviceSeqInput.absent) = [p] →
        r.pred_15m = round3 p :=
  C1_mean_amended ⟨false, false, none, none, some (fun _ => Except.ok 2)⟩
    DeviceSeqInput.absent
    (by rw [show ensemblePreds ⟨false, false, none, none, some (fun _ => Except.ok 2)⟩
          (seqArrOf DeviceSeqInput.absent) = [2] from rfl]
        exact List.cons_ne_nil _ _)

end Ensemble

/-! ## `backend/app.py` — ingestion and the ML pipeline gate -/

namespace App

/-- The JSON payload of a `/telemetry` POST: each numeric key may be absent.
(`device_id` and the server-side timestamp play no role in the claims.) -/
structure Payload where
  voltage : Option ℚ
  ldr : Option ℚ
  temp : Option ℚ
  temperature : Option ℚ
  humidity : Option ℚ
  panel_angle : Option ℚ
  current : Option ℚ
  cur : Option ℚ

/-- The numeric fields of the record the handler builds and pushes. -/
structure TelemetryRec where
  voltage : ℚ
  ldr : ℚ
  temp : ℚ
  humidity : ℚ
  panel_angle : ℚ
  current : ℚ

/-- `float(payload[key])`: raises `KeyError` when the key is absent. -/
def req (o : Option ℚ) (key : String) : Except String ℚ :=
  match o with
  | some v => Except.ok v
  | none => Except.error ("KeyError: " ++ key)

/-- The `rec = {...}` construction in the `/telemetry` handler:
`voltage`, `ldr`, `humidity`, `panel_angle` are required;
`temp` falls back to key `temperature` and, when both are absent,
`float(payload.get("temp", payload.get("temperature")))` is `float(None)` —
a `TypeError` that aborts the request; `current` falls back to key `cur`
and then to the default `0.0`. -/
def buildTelemetryRec (p : Payload) : Except String TelemetryRec := do
  let v ← req p.voltage "voltage"
  let l ← req p.ldr "ldr"
  let t ←
    match p.temp with
    | some t => Except.ok t
    | none =>
        match p.temperature with
        | some t => Except.ok t
        | none => Except.error "TypeError: float() argument must not be None"
  let h ← req p.humidity "humidity"
  let a ← req p.panel_angle "panel_angle"
  let c := p.current.getD (p.cur.getD 0)
  Except.ok ⟨v, l, t, h, a, c⟩

/-- The dict `run_short_term_prediction` returns. -/
structure ShortTermResult where
  predicted_voltage : ℚ
  recommended_angle : ℕ
  pred_voltage_at_recommended_angle : ℚ

/-- The terminal state of one `run_ml_pipeline` invocation.  The whole body is
wrapped in `try/except`, so no outcome re-raises to the caller. -/
inductive PipelineOutcome where
  | notEnoughData
  | completed (shortTerm : ShortTermResult) (dailyForecast : List Daily.ForecastPoint)
  | failed

/-- `run_ml_pipeline(device_id)` after the Firebase window fetch: `seq` is the
fetched window, `shortTerm` and `daily` are the two prediction stages (opaque
model invocations that may raise).  Returns the outcome paired with the list
of angle commands sent to the ESP32.  `if len(seq) < 5: return` fires before
any prediction or actuation. -/
def run_ml_pipeline (seq : List TelemetryRec)
    (shortTerm : List TelemetryRec → Except String ShortTermResult)
    (daily : List TelemetryRec → ℕ → Except String (List Daily.ForecastPoint)) :
    PipelineOutcome × List ℕ :=
  if seq.length < 5 then (PipelineOutcome.notEnoughData, [])
  else
    match shortTerm seq with
    | Except.error _ => (PipelineOutcome.failed, [])
    | Except.ok st =>
        match daily seq 7 with
        | Except.error _ => (PipelineOutcome.failed, [st.recommended_angle])
        | Except.ok df => (PipelineOutcome.completed st df, [st.recommended_angle])

/-- Claim C8: a fetched window of fewer than 5 samples terminates the run
with the "not enough data" outcome before the short-term prediction step: no
prediction is computed, no actuation command is sent, and the outcome is not
the failure state (no error reaches the caller). -/
theorem C8_pipeline_min_window (seq : List TelemetryRec)
    (shortTerm : List TelemetryRec → Except String ShortTermResult)
    (daily : List TelemetryRec → ℕ → Except String (List Daily.ForecastPoint))
    (h : seq.length < 5) :
    run_ml_pipeline seq shortTerm daily = (PipelineOutcome.notEnoughData, []) := by
  simp only [run_ml_pipeline]
  rw [if_pos h]

/-- Witness for C8: a three-sample window with always-failing predictors. -/
theorem C8_pipeline_min_window_wit :
    run_ml_pipeline
      [⟨12, 600, 30, 50, 30, 1⟩, ⟨12, 600, 30, 50, 30, 1⟩, ⟨12, 600, 30, 50, 30, 1⟩]
      (fun _ => Except.error "model error")
      (fun _ _ => Except.error "model error") =
    (PipelineOutcome.notEnoughData, []) :=
  C8_pipeline_min_window
    [⟨12, 600, 30, 50, 30, 1⟩, ⟨12, 600, 30, 50, 30, 1⟩, ⟨12, 600, 30, 50, 30, 1⟩]
    (fun _ => Except.error "model error") (fun _ _ => Except.error "model error")
    (by norm_num)

/-- Counterexample to claim C2 as stated: a payload holding all four required
fields but missing `temp`, `temperature`, `current` and `cur` makes the
handler evaluate `float(None)` — ingestion fails, no record is built. -/
theorem C2_ingestion_counterexample :
    (buildTelemetryRec
      { voltage := some 12, ldr := some 600, temp := none, temperature := none,
        humidity := some 50, panel_angle := some 30, current := none,
        cur := none }).isOk = false := rfl

/-- Claim C2 (amended): ingestion tolerates a missing `current` (and its
fallback key `cur`), substituting the zero default, and a missing `temp`
provided the fallback key `temperature` is present — then a record is built
and the pipeline proceeds; but when both temperature keys are absent the
handler raises a `TypeError` and ingestion fails. -/
theorem C2_ingestion_defaults (p : Payload) (v l t h a : ℚ)
    (hv : p.voltage = some v) (hl : p.ldr = some l)
    (ht : p.temp = none) (ht2 : p.temperature = some t)
    (hh : p.humidity = some h) (ha : p.panel_angle = some a)
    (hc : p.current = none) (hc2 : p.cur = none) :
    buildTelemetryRec p = Except.ok ⟨v, l, t, h, a, 0⟩ ∧
    (p.temperature = none → (buildTelemetryRec p).isOk = false) := by
  constructor
  · simp only [buildTelemetryRec, req, hv, hl, ht, ht2, hh, ha, hc, hc2]
    rfl
  · intro hnone
    rw [hnone] at ht2
    cases ht2

/-- Witness for C2 (amended) at a concrete payload missing `temp`,
`current` and `cur` but carrying `temperature`. -/
theorem C2_ingestion_defaults_wit :
    buildTelemetryRec
      { voltage := some 12, ldr := some 600, temp := none, temperature := some 28,
        humidity := some 50, panel_angle := some 30, current := none, cur := none } =
      Except.ok ⟨12, 600, 28, 50, 30, 0⟩ ∧
    (({ voltage := some 12, ldr := some 600, temp := none, temperature := some 28,
        humidity := some 50, panel_angle := some 30, current := none,
        cur := none } : Payload).temperature = none →
      (buildTelemetryRec
        { voltage := some 12, ldr := some 600, temp := none, temperature := some 28,
          humidity := some 50, panel_angle := some 30, current := none,
          cur := none }).isOk = false) :=
  C2_ingestion_defaults
    { voltage := some 12, ldr := some 600, temp := none, temperature := some 28,
      humidity := some 50, panel_angle := some 30, current := none, cur := none }
    12 600 28 50 30 rfl rfl rfl rfl rfl rfl rfl rfl

end App

end Solar
